import Mathlib

/-!
Verification development for the gem-server repository (authentication
gateway and CDP proxy). Definitions are shallow embeddings of
src/config/gem-server/src/gem/routers/auth.py and routers/cdp.py.
Machine time is modelled as Int (seconds). External library operations
used by the code (Python str/urllib parsing, the cachelib TTL cache,
pyjwt decode, json.loads) are embedded from their documented behaviour,
restricted to the fragments the routers exercise.
-/

namespace Gem

/-! Python string helpers (models of str and urllib.parse operations). -/

/-- Whitespace set used by Python str.split with no separator (ASCII part). -/
def pyIsSpace (c : Char) : Bool :=
  c = ' ' || c = '\t' || c = '\n' || c = '\x0d' || c = '\x0b' || c = '\x0c'

/-- Model of Python str.split(maxsplit=1) with no separator: strip leading
whitespace, take the first whitespace-free token, skip the separating
whitespace run, and keep the remainder verbatim; an empty or all-whitespace
string yields the empty list, and a string with nothing after the first
token yields a one-element list. -/
def pySplitMax1 (s : String) : List String :=
  let l := s.data.dropWhile pyIsSpace
  if l.isEmpty then []
  else
    let tok := l.takeWhile (fun c => !pyIsSpace c)
    let rest := (l.dropWhile (fun c => !pyIsSpace c)).dropWhile pyIsSpace
    if rest.isEmpty then [String.mk tok] else [String.mk tok, String.mk rest]

/-- ASCII lowercasing of one character, as str.lower acts on the ASCII
range (the only range the routers compare). -/
def asciiLower (c : Char) : Char :=
  if 'A' ≤ c ∧ c ≤ 'Z' then Char.ofNat (c.toNat + 32) else c

/-- Model of str.lower restricted to ASCII. -/
def pyLower (s : String) : String :=
  String.mk (s.data.map asciiLower)

/-- Split a character list on every occurrence of a separator character;
models str.split(sep) (the empty string yields one empty chunk). -/
def splitOnChar (c : Char) : List Char → List (List Char)
  | [] => [[]]
  | x :: xs =>
    if x = c then [] :: splitOnChar c xs
    else
      match splitOnChar c xs with
      | [] => [[x]]
      | h :: t => (x :: h) :: t

/-- Numeric value of a hexadecimal digit character. -/
def hexVal (c : Char) : Option Nat :=
  if '0' ≤ c ∧ c ≤ '9' then some (c.toNat - '0'.toNat)
  else if 'a' ≤ c ∧ c ≤ 'f' then some (c.toNat - 'a'.toNat + 10)
  else if 'A' ≤ c ∧ c ≤ 'F' then some (c.toNat - 'A'.toNat + 10)
  else none

/-- Percent-decoding as in urllib.parse.unquote: a percent sign followed by
two hex digits becomes the character with that code; a malformed escape is
kept verbatim. Multi-byte UTF-8 sequences are decoded byte-by-byte in this
model (the routers only ever see ASCII ticket values). -/
def pyUnquoteList : List Char → List Char
  | [] => []
  | '%' :: a :: b :: rest =>
    match hexVal a, hexVal b with
    | some x, some y => Char.ofNat (16 * x + y) :: pyUnquoteList rest
    | _, _ => '%' :: pyUnquoteList (a :: b :: rest)
  | c :: rest => c :: pyUnquoteList rest

/-- Model of the value decoding performed by urllib.parse.parse_qsl:
replace plus signs with spaces, then percent-decode. -/
def pyUnquotePlus (s : String) : String :=
  String.mk (pyUnquoteList (s.data.map fun c => if c = '+' then ' ' else c))

/-- Split a string at the first occurrence of a character: the part before,
and (when the character occurs) the part after. Models str.split(c, 1). -/
def pySplitOnceChar (c : Char) (s : String) : String × Option String :=
  let before := s.data.takeWhile (fun x => x ≠ c)
  match s.data.dropWhile (fun x => x ≠ c) with
  | [] => (String.mk before, none)
  | _ :: t => (String.mk before, some (String.mk t))

/-- Query-string extraction as in urllib.parse.urlparse: drop everything
from the first hash sign (the fragment), then the query is the part after
the first question mark, or empty when there is none. -/
def urlparseQuery (uri : String) : String :=
  let noFrag := (pySplitOnceChar '#' uri).1
  ((pySplitOnceChar '?' noFrag).2).getD ""

/-- Model of urllib.parse.parse_qsl with its defaults (keep_blank_values
False, separator the ampersand): split on ampersands, skip empty chunks and
chunks without an equals sign, skip pairs whose raw value is empty, and
decode both name and value. -/
def pyParseQsl (qs : String) : List (String × String) :=
  (splitOnChar '&' qs.data).filterMap fun nv =>
    if nv.isEmpty then none
    else
      match pySplitOnceChar '=' (String.mk nv) with
      | (_, none) => none
      | (n, some v) =>
        if v = "" then none else some (pyUnquotePlus n, pyUnquotePlus v)

/-- Insert one parsed pair into the ordered dictionary built by parse_qs:
append the value to the list of an existing key, else add a new entry at
the end. -/
def qsInsert : List (String × List String) → String → String → List (String × List String)
  | [], k, v => [(k, [v])]
  | e :: rest, k, v =>
    if e.1 == k then (e.1, e.2 ++ [v]) :: rest else e :: qsInsert rest k v

/-- Lookup in the ordered dictionary (Python dict.get). -/
def dictLookup (d : List (String × List String)) (k : String) : Option (List String) :=
  (d.find? fun e => e.1 == k).map (·.2)

/-- Model of urllib.parse.parse_qs: group the parse_qsl pairs by key,
preserving per-key order of values. -/
def pyParseQs (qs : String) : List (String × List String) :=
  (pyParseQsl qs).foldl (fun d p => qsInsert d p.1 p.2) []

/-! TTL cache. Modelled from the spec: the TTL Cache component (spec 4.1);
its implementation is the external cachelib SimpleCache, which is not part
of this repository. set stores absolute expiry now + ttl, overwriting any
existing entry; get treats a key as present only while the expiry has not
been reached. Both router caches store only the marker True, so the cache
is embedded as a presence map from key to expiry. -/

structure TTLCache where
  entries : List (String × Int)
deriving DecidableEq

/-- Store a key with absolute expiry now + ttl, overwriting any existing
entry for the same key. -/
def TTLCache.set (c : TTLCache) (now : Int) (key : String) (ttl : Int) : TTLCache :=
  ⟨(key, now + ttl) :: c.entries.filter (fun e => e.1 ≠ key)⟩

/-- Truthiness of a get at the given instant: the key is present and its
expiry has not been reached. -/
def TTLCache.get (c : TTLCache) (now : Int) (key : String) : Bool :=
  match c.entries.find? (fun e => e.1 == key) with
  | some e => decide (now < e.2)
  | none => false

/-! Authentication service (routers/auth.py). -/

/-- Configuration fields of AuthConfig that the service logic reads
(auth.py lines 26-51). -/
structure AuthConfig where
  jwt_public_key : Option String
  ticket_ttl : Int
  default_cache_ttl : Int

/-- Outcome of an authentication operation: the success body message, or an
HTTPException with status code and detail. -/
inductive AuthOutcome where
  | ok (message : String)
  | httpError (status : Nat) (detail : String)
deriving DecidableEq

/-- AuthService.create_ticket (auth.py lines 131-142): store the fresh
ticket in the ticket cache with the configured TTL and return the response
fields. The uuid4 value is passed in as the parameter ticket. -/
def create_ticket (cfg : AuthConfig) (cache : TTLCache) (now : Int) (ticket : String) :
    TTLCache × String × Int :=
  (cache.set now ticket cfg.ticket_ttl, ticket, cfg.ticket_ttl)

/-- AuthService.validate_ticket (auth.py lines 144-146): truthiness of the
cache lookup; the read leaves the cache unchanged. -/
def validate_ticket (cache : TTLCache) (now : Int) (ticket : String) : Bool × TTLCache :=
  (cache.get now ticket, cache)

/-- AuthService.parse_ticket_from_uri (auth.py lines 148-153): parse the
query string of the URI and return the last value listed under the ticket
key, if any. -/
def parse_ticket_from_uri (original_uri : String) : Option String :=
  match dictLookup (pyParseQs (urlparseQuery original_uri)) "ticket" with
  | some l => l.getLast?
  | none => none

/-- An exp claim value as the two consumers distinguish it. pyjwt decode
coerces the claim with int() during expiry validation, so it also accepts
non-integer numeric values (a float such as 100.5, or a numeric string);
auth.py line 174 additionally tests isinstance(exp, int). int_claim is a
Python int with that value (a bool, being an int subclass with value 0 or
1, is subsumed); nonint_claim is any other int()-coercible value, carried
by its truncation. A value that int() rejects makes decode fail and never
reaches the caching code, so it needs no constructor. -/
inductive JwtExp where
  | int_claim (e : Int)
  | nonint_claim (trunc : Int)
deriving DecidableEq

/-- The int() coercion pyjwt applies to the exp claim. -/
def JwtExp.toInt : JwtExp → Int
  | .int_claim e => e
  | .nonint_claim t => t

/-- Claims payload of a decoded JWT as far as the service reads it: the
optional exp claim. -/
structure JwtPayload where
  exp : Option JwtExp
deriving DecidableEq

/-- Abstract cryptographic layer of pyjwt decode: which token strings are
structurally well formed (and their payload), and which token/key pairs
carry a valid signature. -/
structure JwtCrypto where
  payloadOf : String → Option JwtPayload
  sigOk : String → String → Bool

/-- Result of pyjwt decode as the service distinguishes it: success with
the payload, ExpiredSignatureError, or any other PyJWTError. -/
inductive DecodeResult where
  | ok (p : JwtPayload)
  | expired
  | invalid
deriving DecidableEq

/-- Model of pyjwt decode(token, key, algorithms): signature and structure
are checked first; then, per pyjwt claim validation, an exp claim whose
int() coercion lies at or before the current instant raises
ExpiredSignatureError. -/
def jwt_decode (w : JwtCrypto) (token key : String) (now : Int) : DecodeResult :=
  match w.payloadOf token with
  | none => .invalid
  | some p =>
    if w.sigOk token key then
      match p.exp with
      | some c => if c.toInt ≤ now then .expired else .ok p
      | none => .ok p
    else .invalid

/-- AuthService._validate_jwt (auth.py lines 155-191). Returns the outcome
together with the resulting JWT cache. On a fresh successful decode the
token is cached per the guard if exp and isinstance(exp, int) on line 174:
with TTL exp - now when the exp claim is a truthy int and that remainder
is positive, not at all when it is a truthy int with a non-positive
remainder, and with the default cache TTL in every other case — claim
absent, int zero (falsy), or not an int at all (then the conjunction is
false whatever its truthiness). -/
def validate_jwt (cfg : AuthConfig) (w : JwtCrypto) (cache : TTLCache) (now : Int)
    (token : String) : AuthOutcome × TTLCache :=
  match cfg.jwt_public_key with
  | none =>
    (.httpError 503 "Authentication is not possible. JWT public key has not been configured.",
     cache)
  | some key =>
    if cache.get now token then (.ok "Access granted from cache.", cache)
    else
      match jwt_decode w token key now with
      | .ok p =>
        let cache2 :=
          match p.exp with
          | some (.int_claim e) =>
            if e ≠ 0 then
              if 0 < e - now then cache.set now token (e - now) else cache
            else cache.set now token cfg.default_cache_ttl
          | some (.nonint_claim _) => cache.set now token cfg.default_cache_ttl
          | none => cache.set now token cfg.default_cache_ttl
        (.ok "Access granted after validation.", cache2)
      | .expired => (.httpError 401 "Token has expired", cache)
      | .invalid => (.httpError 401 "Invalid token", cache)

/-- The two request headers the gateway reads. Header lookup in the web
framework is case-insensitive; the embedding records each header once. -/
structure AuthHeaders where
  x_original_uri : Option String
  authorization : Option String

/-- Python truthiness of an optional string: absent and empty are falsy. -/
def optStrTruthy : Option String → Bool
  | none => false
  | some s => !(s == "")

/-- JWT fallback branch of AuthService.authenticate_request (auth.py lines
218-236): a missing or empty Authorization header is rejected, the header
is split on whitespace at most once, the scheme is matched
case-insensitively against bearer, and the remainder is handed to
_validate_jwt. -/
def jwt_branch (cfg : AuthConfig) (w : JwtCrypto) (jc : TTLCache) (now : Int)
    (h : AuthHeaders) : AuthOutcome × TTLCache :=
  if !optStrTruthy h.authorization then
    (.httpError 401 "Authorization header is missing", jc)
  else
    match pySplitMax1 (h.authorization.getD "") with
    | [token_type, token] =>
      if pyLower token_type == "bearer" then validate_jwt cfg w jc now token
      else (.httpError 401 "Invalid authorization header format. Must be Bearer <token>", jc)
    | _ => (.httpError 401 "Invalid authorization header format. Must be Bearer <token>", jc)

/-- AuthService.authenticate_request (auth.py lines 193-236): extract a
ticket from the X-Original-URI header; a truthy ticket short-circuits to
the ticket check, otherwise the JWT branch decides. Returns the outcome,
the ticket cache and the JWT cache. -/
def authenticate_request (cfg : AuthConfig) (w : JwtCrypto) (tc jc : TTLCache) (now : Int)
    (h : AuthHeaders) : AuthOutcome × TTLCache × TTLCache :=
  match parse_ticket_from_uri (h.x_original_uri.getD "") with
  | some t =>
    if t == "" then
      let r := jwt_branch cfg w jc now h
      (r.1, tc, r.2)
    else if (validate_ticket tc now t).1 then (.ok "Ticket validated.", tc, jc)
    else (.httpError 401 "Invalid or expired ticket.", tc, jc)
  | none =>
    let r := jwt_branch cfg w jc now h
    (r.1, tc, r.2)

/-! CDP proxy service (routers/cdp.py). -/

/-- Configuration fields of CDPProxyConfig that the service logic reads
(cdp.py lines 27-89). -/
structure CDPProxyConfig where
  cdp_origin : Option String
  cdp_netloc : Option String
  custom_command_domain : String

/-- CDPProxyConfig.is_configured (cdp.py lines 87-89): both origin and
netloc must be truthy. -/
def CDPProxyConfig.is_configured (c : CDPProxyConfig) : Bool :=
  optStrTruthy c.cdp_origin && optStrTruthy c.cdp_netloc

/-- Inbound HTTP request as the proxy reads it: method, URL path, URL
scheme, URL netloc, headers and body. -/
structure ProxyRequest where
  method : String
  path : String
  scheme : String
  netloc : String
  headers : List (String × String)
  body : Option String

/-- Case-insensitive header lookup (first match), as in the web framework
headers mapping. -/
def headersGet (hs : List (String × String)) (k : String) : Option String :=
  (hs.find? fun p => pyLower p.1 == pyLower k).map (·.2)

/-- Outbound request the proxy issues upstream. -/
structure UpstreamRequest where
  method : String
  url : String
  headers : List (String × String)
  body : Option String
deriving DecidableEq

/-- Upstream request construction in CDPProxyService.handle_http_request
(cdp.py lines 137-156): copy the inbound headers except host and
accept-encoding, override Host with the configured netloc when truthy, and
issue a GET to the configured origin concatenated with the inbound URL
path, with no body. -/
def build_upstream_request (cfg : CDPProxyConfig) (req : ProxyRequest) : UpstreamRequest :=
  let base := req.headers.filter fun p =>
    pyLower p.1 ≠ "host" && pyLower p.1 ≠ "accept-encoding"
  let hs :=
    if optStrTruthy cfg.cdp_netloc then base ++ [("Host", cfg.cdp_netloc.getD "")]
    else base
  { method := "GET", url := cfg.cdp_origin.getD "" ++ req.path, headers := hs, body := none }

/-- Route declaration of the discovery endpoints (cdp.py lines 454-455):
both methods are accepted on /json and /json/path. -/
def cdp_http_route_methods : List String := ["GET", "POST"]

/-! WebSocket URL rewriting (cdp.py line 110 and lines 261-276). The
pattern is a quote, a ws or wss scheme, a nonempty host free of slashes, a
path starting with /devtools/ running up to the next quote, and the
closing quote. re.sub scans left to right without overlap. -/

/-- The literal path marker required by ws_url_pattern. -/
def devtoolsLit : List Char := "/devtools/".data

/-- Consume the scheme part ws:// or wss:// of ws_url_pattern. -/
def wsSchemeChomp : List Char → Option (List Char)
  | 'w' :: 's' :: rest =>
    match rest with
    | 's' :: ':' :: '/' :: '/' :: r => some r
    | ':' :: '/' :: '/' :: r => some r
    | _ => none
  | _ => none

/-- Attempt to match ws_url_pattern right after an opening quote: returns
the third capture group (the path from /devtools/ up to, excluding, the
closing quote) and the remainder after the closing quote. -/
def tryWsMatch (cs : List Char) : Option (List Char × List Char) :=
  match wsSchemeChomp cs with
  | none => none
  | some afterScheme =>
    let host := afterScheme.takeWhile (fun c => c ≠ '/')
    if host.isEmpty then none
    else
      let afterHost := afterScheme.dropWhile (fun c => c ≠ '/')
      if devtoolsLit.isPrefixOf afterHost then
        let afterDev := afterHost.drop devtoolsLit.length
        let tail := afterDev.takeWhile (fun c => c ≠ '"')
        match afterDev.dropWhile (fun c => c ≠ '"') with
        | '"' :: rest => some (devtoolsLit ++ tail, rest)
        | _ => none
      else none

/-- Fuelled scanner implementing re.sub of ws_url_pattern with the
replacement of _rewrite_websocket_urls: on a match, emit the rewritten
quoted URL and continue after the closing quote; otherwise advance one
character. Fuel bounds the number of scanner steps; each step consumes at
least one input character, so fuel equal to the input length completes the
scan. -/
def subWsUrls (ph pf pr : String) : Nat → List Char → List Char
  | 0, l => l
  | _, [] => []
  | n + 1, c :: cs =>
    if c = '"' then
      match tryWsMatch cs with
      | some (path, rest) =>
        ('"' :: pr.data ++ ':' :: '/' :: '/' :: ph.data ++ pf.data ++ path ++ ['"'])
          ++ subWsUrls ph pf pr n rest
      | none => '"' :: subWsUrls ph pf pr n cs
    else c :: subWsUrls ph pf pr n cs

/-- CDPProxyService._rewrite_websocket_urls (cdp.py lines 261-276). -/
def rewrite_websocket_urls (content proxy_host pfx ws_protocol : String) : String :=
  String.mk (subWsUrls proxy_host pfx ws_protocol content.data.length content.data)

/-- Outcome of the single upstream GET issued by handle_http_request, as
the except clauses distinguish it: httpx.TimeoutException,
httpx.RequestError, a response, or any other unexpected exception. -/
inductive UpstreamOutcome where
  | timeout
  | request_error
  | response (status : Nat) (body : String) (content_type : Option String)
  | unexpected_error
deriving DecidableEq

/-- HTTP result returned to the inbound client. -/
inductive HttpOutcome where
  | httpError (status : Nat) (detail : String)
  | response (status : Nat) (body : String) (content_type : Option String)
deriving DecidableEq

/-- CDPProxyService.handle_http_request (cdp.py lines 126-189): fail
closed with 503 when unconfigured, map a timeout to 504, a request error
to 502, and any unexpected failure to 500; forward a non-200 upstream
response unchanged and rewrite the body of a 200 response. -/
def handle_http_request (cfg : CDPProxyConfig) (req : ProxyRequest)
    (upstream : UpstreamOutcome) : HttpOutcome :=
  if !cfg.is_configured then .httpError 503 "CDP proxy is not properly configured"
  else
    match upstream with
    | .timeout => .httpError 504 "CDP request timeout"
    | .request_error => .httpError 502 "CDP connection failed"
    | .unexpected_error => .httpError 500 "Internal server error"
    | .response s b ct =>
      if s ≠ 200 then .response s b ct
      else
        let pfx := (headersGet req.headers "x-forwarded-prefix").getD ""
        let proxy_host := (headersGet req.headers "host").getD req.netloc
        let ws_protocol := if req.scheme == "https" then "wss" else "ws"
        .response 200 (rewrite_websocket_urls b proxy_host pfx ws_protocol) ct

/-- Observable connection-level actions of the WebSocket handler. -/
inductive WsEvent where
  | accept
  | close (code : Nat) (reason : String)
  | connect_upstream (url : String)
deriving DecidableEq

/-- Connection phase of CDPProxyService.handle_websocket_request (cdp.py
lines 191-204) as an event trace: when the proxy is unconfigured the
inbound socket is closed with code 1011 without being accepted and without
any upstream contact; otherwise the socket is accepted, the upstream
connection is opened, and the relay (abstracted as the parameter relay)
runs. -/
def handle_websocket_request (cfg : CDPProxyConfig) (path : String)
    (relay : List WsEvent) : List WsEvent :=
  if !cfg.is_configured then [.close 1011 "CDP proxy not configured"]
  else
    .accept ::
      .connect_upstream ("ws://" ++ cfg.cdp_netloc.getD "" ++ "/devtools/" ++ path) :: relay

/-! JSON values and a model of json.loads, for the control-channel
dispatch (cdp.py lines 278-314). Numbers are represented exactly as a
decimal mantissa with a power-of-ten exponent. -/

inductive Json where
  | null
  | bool (b : Bool)
  | num (m : Int) (e10 : Int)
  | str (s : String)
  | arr (xs : List Json)
  | obj (kvs : List (String × Json))

/-- Model of the Python substring test (needle in hay) on character
lists. -/
def pyInStr (needle : List Char) : List Char → Bool
  | [] => needle.isEmpty
  | c :: t => needle.isPrefixOf (c :: t) || pyInStr needle t

/-- JSON whitespace accepted by json.loads. -/
def jsonSkipWs (cs : List Char) : List Char :=
  cs.dropWhile fun c => c = ' ' || c = '\t' || c = '\n' || c = '\x0d'

/-- String body parser of json.loads, after the opening quote: standard
escapes, a basic-plane unicode escape, and a strict-mode error on raw
control characters; returns the decoded characters and the remainder after
the closing quote. -/
def parseJStringAux (acc : List Char) : List Char → Option (List Char × List Char)
  | [] => none
  | '"' :: r => some (acc.reverse, r)
  | '\\' :: e :: r =>
    match e with
    | '"' => parseJStringAux ('"' :: acc) r
    | '\\' => parseJStringAux ('\\' :: acc) r
    | '/' => parseJStringAux ('/' :: acc) r
    | 'b' => parseJStringAux ('\x08' :: acc) r
    | 'f' => parseJStringAux ('\x0c' :: acc) r
    | 'n' => parseJStringAux ('\n' :: acc) r
    | 'r' => parseJStringAux ('\x0d' :: acc) r
    | 't' => parseJStringAux ('\t' :: acc) r
    | 'u' =>
      match r with
      | a :: b :: c :: d :: r2 =>
        match hexVal a, hexVal b, hexVal c, hexVal d with
        | some x, some y, some z, some t =>
          parseJStringAux (Char.ofNat (((x * 16 + y) * 16 + z) * 16 + t) :: acc) r2
        | _, _, _, _ => none
      | _ => none
    | _ => none
  | c :: r => if c.toNat < 32 then none else parseJStringAux (c :: acc) r

/-- Digit run helper for the number grammar. -/
def takeDigits (cs : List Char) : List Char × List Char :=
  (cs.takeWhile (fun c => '0' ≤ c ∧ c ≤ '9'), cs.dropWhile (fun c => '0' ≤ c ∧ c ≤ '9'))

/-- Value of a digit run. -/
def digitsVal (ds : List Char) : Nat :=
  ds.foldl (fun a c => a * 10 + (c.toNat - '0'.toNat)) 0

/-- Number parser of json.loads at the current position: optional minus,
an integer part without superfluous leading zero, optional fraction and
exponent; the value is returned as mantissa times ten to the exponent. -/
def parseJNumber (cs : List Char) : Option (Json × List Char) :=
  let (neg, cs1) := match cs with
    | '-' :: r => (true, r)
    | _ => (false, cs)
  let (ds, cs2) := takeDigits cs1
  if ds.isEmpty then none
  else if ds.length > 1 ∧ ds.headI = '0' then none
  else
    let (m0, e0, cs3) :=
      match cs2 with
      | '.' :: r =>
        let (fs, r2) := takeDigits r
        if fs.isEmpty then (0, 0, none)
        else (digitsVal ds * 10 ^ fs.length + digitsVal fs, -(fs.length : Int), some r2)
      | _ => (digitsVal ds, 0, some cs2)
    match cs3 with
    | none => none
    | some cs4 =>
      let m : Int := if neg then -(m0 : Int) else (m0 : Int)
      match cs4 with
      | 'e' :: r | 'E' :: r =>
        let (esign, r2) := match r with
          | '+' :: r3 => ((1 : Int), r3)
          | '-' :: r3 => ((-1 : Int), r3)
          | _ => ((1 : Int), r)
        let (es, r4) := takeDigits r2
        if es.isEmpty then none
        else some (.num m (e0 + esign * (digitsVal es : Int)), r4)
      | _ => some (.num m e0, cs4)

mutual

/-- Value parser of json.loads, fuelled; every recursive call consumes at
least one input character, so fuel exceeding the input length never runs
out on well-formed input. -/
def parseJValue : Nat → List Char → Option (Json × List Char)
  | 0, _ => none
  | n + 1, cs =>
    match jsonSkipWs cs with
    | 'n' :: 'u' :: 'l' :: 'l' :: r => some (.null, r)
    | 't' :: 'r' :: 'u' :: 'e' :: r => some (.bool true, r)
    | 'f' :: 'a' :: 'l' :: 's' :: 'e' :: r => some (.bool false, r)
    | '"' :: r => (parseJStringAux [] r).map fun p => (.str (String.mk p.1), p.2)
    | '[' :: r =>
      match jsonSkipWs r with
      | ']' :: r2 => some (.arr [], r2)
      | cs2 => parseJElems n cs2 []
    | '{' :: r =>
      match jsonSkipWs r with
      | '}' :: r2 => some (.obj [], r2)
      | cs2 => parseJMembers n cs2 []
    | cs2 => parseJNumber cs2

/-- Array element list parser (after at least one element is known to
follow). -/
def parseJElems : Nat → List Char → List Json → Option (Json × List Char)
  | 0, _, _ => none
  | n + 1, cs, acc =>
    match parseJValue n cs with
    | none => none
    | some (v, r) =>
      match jsonSkipWs r with
      | ',' :: r2 => parseJElems n r2 (acc ++ [v])
      | ']' :: r2 => some (.arr (acc ++ [v]), r2)
      | _ => none

/-- Object member list parser (after at least one member is known to
follow). Duplicate keys are kept in order; lookup takes the last, as a
Python dict built by repeated assignment does. -/
def parseJMembers : Nat → List Char → List (String × Json) → Option (Json × List Char)
  | 0, _, _ => none
  | n + 1, cs, acc =>
    match jsonSkipWs cs with
    | '"' :: r =>
      match parseJStringAux [] r with
      | none => none
      | some (k, r2) =>
        match jsonSkipWs r2 with
        | ':' :: r3 =>
          match parseJValue n r3 with
          | none => none
          | some (v, r4) =>
            match jsonSkipWs r4 with
            | ',' :: r5 => parseJMembers n r5 (acc ++ [(String.mk k, v)])
            | '}' :: r5 => some (.obj (acc ++ [(String.mk k, v)]), r5)
            | _ => none
        | _ => none
    | _ => none

end

/-- Model of json.loads: parse one value and require only whitespace after
it. -/
def json_loads (s : String) : Option Json :=
  match parseJValue (s.length + 1) s.data with
  | some (v, r) => if (jsonSkipWs r).isEmpty then some v else none
  | none => none

/-- Lookup in a parsed JSON object with Python dict semantics: the last
occurrence of a duplicated key wins. -/
def jsonObjGet (kvs : List (String × Json)) (k : String) : Option Json :=
  (kvs.reverse.find? fun e => e.1 == k).map (·.2)

/-- Python truthiness of a JSON value, as applied by bool() in the
setLoggingEnabled handler. -/
def pyTruthy : Json → Bool
  | .null => false
  | .bool b => b
  | .num m _ => m ≠ 0
  | .str s => s ≠ ""
  | .arr xs => !xs.isEmpty
  | .obj kvs => !kvs.isEmpty

/-- Result of a locally dispatched control command: the reply sent on the
inbound channel and the new logging flag. -/
structure CustomCmdResult where
  reply : Json
  logging_enabled : Bool

/-- CDPProxyService._handle_custom_command (cdp.py lines 278-314). Returns
none when the frame is not handled (the substring pre-check fails, the
frame does not parse, the parsed value is not an object, the method is
missing, not a string, or not domain-prefixed, or an AttributeError is
raised because params is not an object), and the reply otherwise. -/
def handle_custom_command (domain : String) (logging_state : Bool) (data : String) :
    Option CustomCmdResult :=
  if !pyInStr domain.data data.data then none
  else
    match json_loads data with
    | some (.obj kvs) =>
      match jsonObjGet kvs "method" with
      | some (.str m) =>
        if !(domain ++ ".").data.isPrefixOf m.data then none
        else
          let command_id := (jsonObjGet kvs "id").getD .null
          let params := (jsonObjGet kvs "params").getD (.obj [])
          if m == domain ++ ".setLoggingEnabled" then
            match params with
            | .obj ps =>
              let enabled := pyTruthy ((jsonObjGet ps "enabled").getD (.bool false))
              some ⟨.obj [("id", command_id), ("result", .obj [])], enabled⟩
            | _ => none
          else
            some ⟨.obj [("id", command_id),
                        ("error", .obj [("code", .num (-32601) 0),
                                        ("message", .str "Method not found")])],
                  logging_state⟩
      | _ => none
    | _ => none

/-- Effect of one inbound text frame in _forward_client_to_cdp (cdp.py
lines 344-365): the frames sent upstream, the replies sent back on the
inbound channel, and the resulting logging flag. -/
structure ForwardStep where
  upstream : List String
  replies : List Json
  logging_enabled : Bool

/-- One iteration of the inbound loop of _forward_client_to_cdp for a text
frame: a frame handled by _handle_custom_command is answered locally and
never forwarded; any other frame is forwarded upstream unmodified. -/
def forward_text_frame (domain : String) (logging_state : Bool) (data : String) :
    ForwardStep :=
  match handle_custom_command domain logging_state data with
  | some r => ⟨[], [r.reply], r.logging_enabled⟩
  | none => ⟨[data], [], logging_state⟩

/-- Characterization of the frames that are dispatched locally, written
from the amended claim: the raw frame contains the domain name as a
substring, parses as a JSON object whose method is a string starting with
the domain followed by a dot, and, when the method is exactly the
setLoggingEnabled verb, the params field (defaulting to an empty object)
is an object. -/
def is_control_frame (domain : String) (data : String) : Bool :=
  pyInStr domain.data data.data &&
    match json_loads data with
    | some (.obj kvs) =>
      match jsonObjGet kvs "method" with
      | some (.str m) =>
        (domain ++ ".").data.isPrefixOf m.data &&
          (if m == domain ++ ".setLoggingEnabled" then
            match (jsonObjGet kvs "params").getD (.obj []) with
            | .obj _ => true
            | _ => false
          else true)
      | _ => false
    | _ => false

/-! Auxiliary definitions used only by theorem statements. -/

/-- Repeated ticket checks threading the cache state, to express that
checking is not consuming. -/
def check_ticket_many (cache : TTLCache) (ticket : String) : List Int → List Bool × TTLCache
  | [] => ([], cache)
  | t :: ts =>
    let r := validate_ticket cache t ticket
    let rest := check_ticket_many r.2 ticket ts
    (r.1 :: rest.1, rest.2)

/-- Reading a key just written is governed only by the expiry instant. -/
theorem TTLCache.get_set_self (c : TTLCache) (now t : Int) (k : String) (ttl : Int) :
    (c.set now k ttl).get t k = decide (t < now + ttl) := by
  simp [TTLCache.set, TTLCache.get, List.find?]

/-- C2: a ticket returned by create_ticket validates immediately after
issuance and at any instant before the configured ticket TTL has elapsed,
fails to validate from the instant the TTL has elapsed, and can be checked
any number of times within the validity window without invalidating it
(tickets are multi-use). Stated for a positive configured TTL. -/
theorem C2_ticket_valid_until_ttl (cfg : AuthConfig) (tc : TTLCache) (now : Int)
    (ticket : String) (httl : 0 < cfg.ticket_ttl) :
    (validate_ticket ((create_ticket cfg tc now ticket).1) now ticket).1 = true
    ∧ (∀ t, now ≤ t → t < now + cfg.ticket_ttl →
        (validate_ticket ((create_ticket cfg tc now ticket).1) t ticket).1 = true)
    ∧ (∀ t, now + cfg.ticket_ttl ≤ t →
        (validate_ticket ((create_ticket cfg tc now ticket).1) t ticket).1 = false)
    ∧ (∀ ts : List Int, (∀ t ∈ ts, t < now + cfg.ticket_ttl) →
        (check_ticket_many ((create_ticket cfg tc now ticket).1) ticket ts).1.all id = true
        ∧ (check_ticket_many ((create_ticket cfg tc now ticket).1) ticket ts).2
            = (create_ticket cfg tc now ticket).1) := by
  have hget : ∀ t, (validate_ticket ((create_ticket cfg tc now ticket).1) t ticket).1
      = decide (t < now + cfg.ticket_ttl) := by
    intro t
    simp [create_ticket, validate_ticket, TTLCache.get_set_self]
  refine ⟨?_, ?_, ?_, ?_⟩
  · rw [hget]; simp; omega
  · intro t _ h2; rw [hget]; simpa using h2
  · intro t h1; rw [hget]; simp; omega
  · intro ts hts
    induction ts with
    | nil => simp [check_ticket_many]
    | cons t ts ih =>
      have h1 : t < now + cfg.ticket_ttl := hts t (by simp)
      have h2 := ih (fun x hx => hts x (by simp [hx]))
      simp only [check_ticket_many, validate_ticket]
      constructor
      · simp only [List.all_cons, h2.1, Bool.and_true, id]
        have := hget t
        simp only [validate_ticket] at this
        rw [this]; simpa using h1
      · exact h2.2

/-- C2 witness at the default configuration. -/
theorem C2_ticket_valid_until_ttl_witness :
    (0 : Int) < (30 : Int)
    ∧ (validate_ticket ((create_ticket ⟨none, 30, 1800⟩ ⟨[]⟩ 0 "t").1) 0 "t").1 = true :=
  ⟨by decide, (C2_ticket_valid_until_ttl ⟨none, 30, 1800⟩ ⟨[]⟩ 0 "t" (by decide)).1⟩

/-- C3: a token present in the JWT cache (with a public key configured) is
accepted immediately from the cache, with an outcome independent of the
cryptographic world and of the configured key; in particular a token that
was freshly validated and cached is accepted again on identical replay
even after the public key and signature semantics are replaced. -/
theorem C3_jwt_cache_bypasses_crypto
    (cfg : AuthConfig) (w : JwtCrypto) (jc : TTLCache) (now : Int) (token k : String)
    (e : Int) (hk : cfg.jwt_public_key = some k) (hnow : 0 ≤ now)
    (hmiss : jc.get now token = false)
    (hp : w.payloadOf token = some ⟨some (.int_claim e)⟩)
    (hsig : w.sigOk token k = true)
    (hexp : now < e) :
    (validate_jwt cfg w jc now token).1 = .ok "Access granted after validation."
    ∧ (validate_jwt cfg w jc now token).2.get now token = true
    ∧ (∀ (cfg2 : AuthConfig) (w2 : JwtCrypto) (jc2 : TTLCache) (now2 : Int)
          (tok k2 : String), cfg2.jwt_public_key = some k2 → jc2.get now2 tok = true →
        validate_jwt cfg2 w2 jc2 now2 tok = (.ok "Access granted from cache.", jc2))
    ∧ (∀ (cfg2 : AuthConfig) (w2 : JwtCrypto) (now2 : Int) (k2 : String),
        cfg2.jwt_public_key = some k2 → now2 < e →
        validate_jwt cfg2 w2 (validate_jwt cfg w jc now token).2 now2 token
          = (.ok "Access granted from cache.", (validate_jwt cfg w jc now token).2)) := by
  have hdec : jwt_decode w token k now = .ok ⟨some (.int_claim e)⟩ := by
    simp [jwt_decode, hp, hsig, JwtExp.toInt]; omega
  have hcache : ∀ (cfg2 : AuthConfig) (w2 : JwtCrypto) (jc2 : TTLCache) (now2 : Int)
      (tok k2 : String), cfg2.jwt_public_key = some k2 → jc2.get now2 tok = true →
      validate_jwt cfg2 w2 jc2 now2 tok = (.ok "Access granted from cache.", jc2) := by
    intro cfg2 w2 jc2 now2 tok k2 hk2 hhit
    simp [validate_jwt, hk2, hhit]
  have hne : e ≠ 0 := by omega
  have hpos : 0 < e - now := by omega
  have hval : validate_jwt cfg w jc now token
      = (.ok "Access granted after validation.", jc.set now token (e - now)) := by
    simp [validate_jwt, hk, hmiss, hdec, hne, hpos]
  have hstored : (validate_jwt cfg w jc now token).2.get now token = true := by
    rw [hval]
    simp [TTLCache.get_set_self]; omega
  refine ⟨by rw [hval], hstored, hcache, ?_⟩
  intro cfg2 w2 now2 k2 hk2 hlt
  have hhit : (validate_jwt cfg w jc now token).2.get now2 token = true := by
    rw [hval]
    simp [TTLCache.get_set_self]; omega
  exact hcache cfg2 w2 _ now2 token k2 hk2 hhit

/-- C3 witness: a concrete cached-replay scenario with the key and the
signature semantics both replaced between the two calls. -/
theorem C3_jwt_cache_bypasses_crypto_witness :
    (⟨some "K1", 30, 1800⟩ : AuthConfig).jwt_public_key = some "K1"
    ∧ (0 : Int) ≤ (10 : Int)
    ∧ (TTLCache.mk []).get 10 "tok" = false
    ∧ (JwtCrypto.mk (fun _ => some ⟨some (.int_claim 100)⟩) (fun _ _ => true)).payloadOf "tok"
        = some ⟨some (.int_claim 100)⟩
    ∧ (JwtCrypto.mk (fun _ => some ⟨some (.int_claim 100)⟩) (fun _ _ => true)).sigOk "tok" "K1" = true
    ∧ (10 : Int) < (100 : Int)
    ∧ validate_jwt ⟨some "K2", 30, 1800⟩ ⟨fun _ => some ⟨some (.int_claim 100)⟩, fun _ _ => false⟩
        (validate_jwt ⟨some "K1", 30, 1800⟩ ⟨fun _ => some ⟨some (.int_claim 100)⟩, fun _ _ => true⟩
          ⟨[]⟩ 10 "tok").2 20 "tok"
        = (.ok "Access granted from cache.",
           (validate_jwt ⟨some "K1", 30, 1800⟩ ⟨fun _ => some ⟨some (.int_claim 100)⟩, fun _ _ => true⟩
             ⟨[]⟩ 10 "tok").2) := by
  refine ⟨rfl, by decide, by decide, rfl, rfl, by decide, ?_⟩
  exact (C3_jwt_cache_bypasses_crypto ⟨some "K1", 30, 1800⟩
    ⟨fun _ => some ⟨some (.int_claim 100)⟩, fun _ _ => true⟩ ⟨[]⟩ 10 "tok" "K1" 100 rfl (by decide)
    (by decide) rfl rfl (by decide)).2.2.2 ⟨some "K2", 30, 1800⟩
    ⟨fun _ => some ⟨some (.int_claim 100)⟩, fun _ _ => false⟩ 20 "K2" rfl (by decide)

/-- C4 counterexample: a signed token whose exp claim is the non-integer
value 100.5 (modelled as nonint_claim 100, its int() truncation) decodes
successfully at instant 50 — so the expiry claim is present and the
remaining time positive — yet the isinstance(exp, int) guard of auth.py
line 174 sends it to the else branch and it is cached with the default
TTL 1800 rather than the remaining time. -/
theorem C4_counterexample :
    jwt_decode ⟨fun _ => some ⟨some (.nonint_claim 100)⟩, fun _ _ => true⟩ "tok" "K" 50
      = .ok ⟨some (.nonint_claim 100)⟩
    ∧ (50 : Int) < (JwtExp.nonint_claim 100).toInt
    ∧ validate_jwt ⟨some "K", 30, 1800⟩
        ⟨fun _ => some ⟨some (.nonint_claim 100)⟩, fun _ _ => true⟩ ⟨[]⟩ 50 "tok"
      = (.ok "Access granted after validation.", (TTLCache.mk []).set 50 "tok" 1800)
    ∧ (1800 : Int) ≠ (JwtExp.nonint_claim 100).toInt - 50 :=
  ⟨rfl, by decide, rfl, by decide⟩

/-- C4 (amended): a token that decodes successfully is stored in the JWT
cache with TTL equal to the remaining seconds to its exp claim when that
claim is a Python int (the remainder is then necessarily positive,
because decode rejects an elapsed claim), and with the configured default
cache TTL otherwise — when the claim is absent or when it is not an int
(a float or numeric string accepted by the int() coercion of pyjwt), even
though such a claim is present with positive remaining time. -/
theorem C4_jwt_cache_ttl_on_success
    (cfg : AuthConfig) (w : JwtCrypto) (jc : TTLCache) (now : Int) (token k : String)
    (p : JwtPayload) (hk : cfg.jwt_public_key = some k) (hnow : 0 ≤ now)
    (hmiss : jc.get now token = false)
    (hdec : jwt_decode w token k now = .ok p) :
    validate_jwt cfg w jc now token
      = (.ok "Access granted after validation.",
         jc.set now token
           (match p.exp with
            | some (.int_claim e) => e - now
            | some (.nonint_claim _) => cfg.default_cache_ttl
            | none => cfg.default_cache_ttl))
    ∧ (∀ c, p.exp = some c → now < c.toInt)
    ∧ (∀ e, p.exp = some (.int_claim e) → 0 < e - now) := by
  have hexp : ∀ c, p.exp = some c → now < c.toInt := by
    intro c he
    unfold jwt_decode at hdec
    cases hpo : w.payloadOf token with
    | none => rw [hpo] at hdec; simp at hdec
    | some p0 =>
      rw [hpo] at hdec
      by_cases hs : w.sigOk token k = true
      · rw [hs] at hdec
        simp only [if_true] at hdec
        cases hpe : p0.exp with
        | none => rw [hpe] at hdec; simp at hdec; rw [← hdec, hpe] at he; exact absurd he (by simp)
        | some c0 =>
          rw [hpe] at hdec
          by_cases hle : c0.toInt ≤ now
          · simp [hle] at hdec
          · simp [hle] at hdec
            rw [← hdec, hpe] at he
            cases he; omega
      · simp [hs] at hdec
  refine ⟨?_, hexp, ?_⟩
  · cases hpe : p.exp with
    | some c =>
      cases c with
      | int_claim e =>
        have hlt := hexp _ hpe
        simp only [JwtExp.toInt] at hlt
        have hne : e ≠ 0 := by omega
        have hpos : 0 < e - now := by omega
        simp [validate_jwt, hk, hmiss, hdec, hpe, hne, hpos]
      | nonint_claim t => simp [validate_jwt, hk, hmiss, hdec, hpe]
    | none => simp [validate_jwt, hk, hmiss, hdec, hpe]
  · intro e he
    have := hexp _ he
    simp only [JwtExp.toInt] at this
    omega

/-- C4 witness at a concrete successful decode with an exp claim. -/
theorem C4_jwt_cache_ttl_on_success_witness :
    (⟨some "K", 30, 1800⟩ : AuthConfig).jwt_public_key = some "K"
    ∧ (0 : Int) ≤ (10 : Int)
    ∧ (TTLCache.mk []).get 10 "tok" = false
    ∧ jwt_decode ⟨fun _ => some ⟨some (.int_claim 100)⟩, fun _ _ => true⟩ "tok" "K" 10
        = .ok ⟨some (.int_claim 100)⟩
    ∧ validate_jwt ⟨some "K", 30, 1800⟩ ⟨fun _ => some ⟨some (.int_claim 100)⟩, fun _ _ => true⟩
        ⟨[]⟩ 10 "tok"
        = (.ok "Access granted after validation.", (TTLCache.mk []).set 10 "tok" 90) := by
  refine ⟨rfl, by decide, by decide, by decide, ?_⟩
  exact (C4_jwt_cache_ttl_on_success ⟨some "K", 30, 1800⟩
    ⟨fun _ => some ⟨some (.int_claim 100)⟩, fun _ _ => true⟩ ⟨[]⟩ 10 "tok" "K" ⟨some (.int_claim 100)⟩ rfl
    (by decide) (by decide) (by decide)).1

/-- C6: the discovery proxy fails closed with 503 when the configuration is
not fully resolved, independently of the upstream outcome (no upstream call
is consulted), and otherwise maps an upstream timeout to 504, an upstream
request error to 502, and any unexpected failure to 500. -/
theorem C6_http_failure_mapping (cfg : CDPProxyConfig) (req : ProxyRequest) :
    (cfg.is_configured = false →
      ∀ u, handle_http_request cfg req u
        = .httpError 503 "CDP proxy is not properly configured")
    ∧ (cfg.is_configured = true →
        handle_http_request cfg req .timeout = .httpError 504 "CDP request timeout"
        ∧ handle_http_request cfg req .request_error = .httpError 502 "CDP connection failed"
        ∧ handle_http_request cfg req .unexpected_error
            = .httpError 500 "Internal server error") := by
  constructor
  · intro h u; simp [handle_http_request, h]
  · intro h; refine ⟨?_, ?_, ?_⟩ <;> simp [handle_http_request, h]

/-- C6 witness: a concrete unconfigured and a concrete configured
instance. -/
theorem C6_http_failure_mapping_witness :
    handle_http_request ⟨none, none, "CDPProxy"⟩
        ⟨"GET", "/json", "http", "h", [], none⟩ .timeout
      = .httpError 503 "CDP proxy is not properly configured"
    ∧ handle_http_request ⟨some "http://up:9222", some "up:9222", "CDPProxy"⟩
        ⟨"GET", "/json", "http", "h", [], none⟩ .timeout
      = .httpError 504 "CDP request timeout" :=
  ⟨(C6_http_failure_mapping ⟨none, none, "CDPProxy"⟩
      ⟨"GET", "/json", "http", "h", [], none⟩).1 (by decide) .timeout,
   ((C6_http_failure_mapping ⟨some "http://up:9222", some "up:9222", "CDPProxy"⟩
      ⟨"GET", "/json", "http", "h", [], none⟩).2 (by decide)).1⟩

/-- C8 counterexample: with an unresolved configuration the handler closes
the inbound session with code 1011 and a reason, but the accept event
claimed to come first never occurs (the socket is closed without being
accepted). -/
theorem C8_counterexample :
    handle_websocket_request ⟨none, none, "CDPProxy"⟩ "page/1" [.accept]
      = [.close 1011 "CDP proxy not configured"]
    ∧ WsEvent.accept ∉ handle_websocket_request ⟨none, none, "CDPProxy"⟩ "page/1" [.accept] := by
  decide

/-- C8 (amended): with an unresolved configuration the handler closes the
inbound session with server-error code 1011 and a reason, without ever
accepting it and without ever contacting the upstream endpoint. -/
theorem C8_unconfigured_close_without_accept (cfg : CDPProxyConfig) (path : String)
    (relay : List WsEvent) (h : cfg.is_configured = false) :
    handle_websocket_request cfg path relay = [.close 1011 "CDP proxy not configured"]
    ∧ WsEvent.accept ∉ handle_websocket_request cfg path relay
    ∧ ∀ u, WsEvent.connect_upstream u ∉ handle_websocket_request cfg path relay := by
  have ht : handle_websocket_request cfg path relay
      = [.close 1011 "CDP proxy not configured"] := by
    simp [handle_websocket_request, h]
  refine ⟨ht, ?_, ?_⟩
  · rw [ht]; simp
  · intro u; rw [ht]; simp

/-- C8 witness at a concrete unconfigured instance. -/
theorem C8_unconfigured_close_without_accept_witness :
    handle_websocket_request ⟨some "", some "up", "CDPProxy"⟩ "p" []
      = [.close 1011 "CDP proxy not configured"] :=
  (C8_unconfigured_close_without_accept ⟨some "", some "up", "CDPProxy"⟩ "p" []
    (by decide)).1

/-- C10: for every inbound discovery request, whatever its method and
body, the outbound upstream request is a GET to the configured origin
concatenated with the inbound path, and the inbound body is never
forwarded. -/
theorem C10_upstream_always_get (cfg : CDPProxyConfig) (req : ProxyRequest) :
    (build_upstream_request cfg req).method = "GET"
    ∧ (build_upstream_request cfg req).body = none
    ∧ (build_upstream_request cfg req).url = cfg.cdp_origin.getD "" ++ req.path
    ∧ ∀ m b, build_upstream_request cfg { req with method := m, body := b }
        = build_upstream_request cfg req :=
  ⟨rfl, rfl, rfl, fun _ _ => rfl⟩

/-! Claim C9: parse_qs grouping versus raw occurrence order. -/

/-- Values of the ticket parameter in raw query order, written directly
from the parsed pair list and bypassing the dictionary grouping: the
decoded values of the occurrences that parse_qsl keeps (those with an
equals sign and a non-empty raw value). -/
def ticket_occurrences (uri : String) : List String :=
  ((pyParseQsl (urlparseQuery uri)).filter (fun p => p.1 == "ticket")).map Prod.snd

/-- Lookup after a cons. -/
theorem dictLookup_cons (e : String × List String) (l : List (String × List String))
    (k : String) :
    dictLookup (e :: l) k = if e.1 == k then some e.2 else dictLookup l k := by
  by_cases h : e.1 == k <;> simp [dictLookup, List.find?, h]

/-- Lookup through one insertion. -/
theorem dictLookup_qsInsert (d : List (String × List String)) (k k2 v : String) :
    dictLookup (qsInsert d k2 v) k
      = if k = k2 then some ((dictLookup d k).getD [] ++ [v]) else dictLookup d k := by
  induction d with
  | nil =>
    by_cases h : k = k2
    · simp [qsInsert, dictLookup_cons, dictLookup, h]
    · have h2 : (k2 == k) = false := by simp [beq_iff_eq]; exact fun he => h he.symm
      simp [qsInsert, dictLookup_cons, dictLookup, h, h2]
  | cons e rest ih =>
    by_cases h2 : e.1 = k2
    · have hb : (e.1 == k2) = true := by simp [h2]
      by_cases hk : e.1 = k
      · have hkk2 : k = k2 := by rw [← hk, h2]
        simp [qsInsert, hb, dictLookup_cons, hk, hkk2]
      · have hkb : (e.1 == k) = false := by simp [hk]
        have hne : ¬ k = k2 := fun he => hk (by rw [he, h2])
        simp [qsInsert, hb, dictLookup_cons, hkb, hne]
    · have hb : (e.1 == k2) = false := by simp [h2]
      by_cases hk : e.1 = k
      · have hne : ¬ k = k2 := fun he => h2 (by rw [hk, he])
        simp [qsInsert, hb, dictLookup_cons, hk, hne]
      · have hkb : (e.1 == k) = false := by simp [hk]
        simp [qsInsert, hb, dictLookup_cons, hkb, ih]

/-- Lookup after folding pairs into a dictionary already holding some
values for the key: the values of the key are extended, in order, by the
filtered raw values. -/
theorem dictLookup_foldl_some (pairs : List (String × String))
    (d : List (String × List String)) (k : String) (vs0 : List String)
    (hd : dictLookup d k = some vs0) :
    dictLookup (pairs.foldl (fun d p => qsInsert d p.1 p.2) d) k
      = some (vs0 ++ (pairs.filter (fun p => p.1 == k)).map Prod.snd) := by
  induction pairs generalizing d vs0 with
  | nil => simp [hd]
  | cons p rest ih =>
    simp only [List.foldl_cons]
    by_cases hk : p.1 = k
    · have hb : (p.1 == k) = true := by simp [hk]
      have hq := dictLookup_qsInsert d k p.1 p.2
      rw [if_pos hk.symm, hd] at hq
      rw [ih _ _ hq]
      simp [List.filter_cons, hb]
    · have hb : (p.1 == k) = false := by simp [hk]
      have hq := dictLookup_qsInsert d k p.1 p.2
      rw [if_neg (fun he => hk he.symm), hd] at hq
      rw [ih _ _ hq]
      simp [List.filter_cons, hb]

/-- Lookup after folding pairs into a dictionary not yet holding the key:
the values of the key are exactly the filtered raw values, absent when
there are none. -/
theorem dictLookup_foldl_none (pairs : List (String × String))
    (d : List (String × List String)) (k : String)
    (hd : dictLookup d k = none) :
    dictLookup (pairs.foldl (fun d p => qsInsert d p.1 p.2) d) k
      = if (pairs.filter (fun p => p.1 == k)) = [] then none
        else some ((pairs.filter (fun p => p.1 == k)).map Prod.snd) := by
  induction pairs generalizing d with
  | nil => simp [hd]
  | cons p rest ih =>
    simp only [List.foldl_cons]
    by_cases hk : p.1 = k
    · have hb : (p.1 == k) = true := by simp [hk]
      have hq := dictLookup_qsInsert d k p.1 p.2
      rw [if_pos hk.symm, hd] at hq
      simp only [Option.getD_none, List.nil_append] at hq
      rw [dictLookup_foldl_some rest _ k [p.2] hq]
      simp [List.filter_cons, hb]
    · have hb : (p.1 == k) = false := by simp [hk]
      have hq := dictLookup_qsInsert d k p.1 p.2
      rw [if_neg (fun he => hk he.symm), hd] at hq
      have hfc : List.filter (fun q => q.1 == k) (p :: rest)
          = List.filter (fun q => q.1 == k) rest := by simp [hb]
      rw [hfc, ih _ hq]

/-- C9 (amended): parse_ticket_from_uri returns the value of the last
ticket occurrence that parse_qs keeps, namely the last occurrence written
with an equals sign and a non-empty value (blank-valued occurrences are
dropped), and absent when there is no such occurrence; in particular the
query ticket=a&ticket=b yields b. -/
theorem C9_last_kept_ticket_occurrence :
    (∀ uri : String, parse_ticket_from_uri uri = (ticket_occurrences uri).getLast?)
    ∧ parse_ticket_from_uri "http://h/p?ticket=a&ticket=b" = some "b" := by
  have hmain : ∀ uri : String,
      parse_ticket_from_uri uri = (ticket_occurrences uri).getLast? := by
    intro uri
    unfold parse_ticket_from_uri ticket_occurrences pyParseQs
    rw [dictLookup_foldl_none _ _ _ (by simp [dictLookup])]
    by_cases hf : (pyParseQsl (urlparseQuery uri)).filter
        (fun p => p.1 == "ticket") = []
    · simp [hf]
    · simp [hf]
  exact ⟨hmain, by rw [hmain]; decide⟩

/-- C9 counterexample: in ticket=a&ticket= the last raw occurrence of the
ticket parameter carries the empty value, yet extraction returns the value
a of the earlier occurrence, not that last empty value. -/
theorem C9_counterexample :
    parse_ticket_from_uri "http://h/p?ticket=a&ticket=" = some "a"
    ∧ parse_ticket_from_uri "http://h/p?ticket=a&ticket=" ≠ some "" := by
  decide

/-- C1: the gateway decision short-circuits on tickets: when a ticket is
extracted from the X-Original-URI header the outcome is exactly the ticket
check (accept, else 401 invalid-or-expired) and the JWT verifier is never
consulted (the outcome does not depend on the key configuration, the
crypto world, the JWT cache or the Authorization header); when no ticket
is extracted, a missing or empty Authorization header is rejected 401, a
header that does not split into a case-insensitive bearer scheme and a
token is rejected 401, and otherwise the outcome is the JWT verification
of the token. -/
theorem C1_gateway_short_circuit (cfg : AuthConfig) (w : JwtCrypto) (tc jc : TTLCache)
    (now : Int) (h : AuthHeaders) :
    (∀ t, parse_ticket_from_uri (h.x_original_uri.getD "") = some t → t ≠ "" →
      (authenticate_request cfg w tc jc now h).1
        = (if (validate_ticket tc now t).1 then .ok "Ticket validated."
           else .httpError 401 "Invalid or expired ticket.")
      ∧ (∀ (cfg2 : AuthConfig) (w2 : JwtCrypto) (jc2 : TTLCache) (a2 : Option String),
          (authenticate_request cfg w tc jc now h).1
            = (authenticate_request cfg2 w2 tc jc2 now ⟨h.x_original_uri, a2⟩).1))
    ∧ (optStrTruthy (parse_ticket_from_uri (h.x_original_uri.getD "")) = false →
        (optStrTruthy h.authorization = false →
          (authenticate_request cfg w tc jc now h).1
            = .httpError 401 "Authorization header is missing")
        ∧ (∀ a ty tok, h.authorization = some a → pySplitMax1 a = [ty, tok] →
            pyLower ty = "bearer" →
            (authenticate_request cfg w tc jc now h).1 = (validate_jwt cfg w jc now tok).1)
        ∧ (∀ a, h.authorization = some a → a ≠ "" →
            (∀ ty tok, pySplitMax1 a = [ty, tok] → pyLower ty ≠ "bearer") →
            (authenticate_request cfg w tc jc now h).1
              = .httpError 401
                  "Invalid authorization header format. Must be Bearer <token>")) := by
  constructor
  · intro t hpt hne
    have hb : (t == "") = false := by simp [hne]
    constructor
    · by_cases hv : (validate_ticket tc now t).1 = true <;>
        simp [authenticate_request, hpt, hb, hv]
    · intro cfg2 w2 jc2 a2
      by_cases hv : (validate_ticket tc now t).1 = true <;>
        simp [authenticate_request, hpt, hb, hv]
  · intro hnot
    have hjwt : (authenticate_request cfg w tc jc now h).1
        = (jwt_branch cfg w jc now h).1 := by
      unfold authenticate_request
      cases hpt : parse_ticket_from_uri (h.x_original_uri.getD "") with
      | none => simp
      | some t =>
        rw [hpt] at hnot
        simp [optStrTruthy] at hnot
        simp [hnot]
    refine ⟨?_, ?_, ?_⟩
    · intro hauth
      rw [hjwt]
      simp [jwt_branch, hauth]
    · intro a ty tok ha hsplit hty
      have hane : a ≠ "" := by
        intro hae
        rw [hae] at hsplit
        simp [pySplitMax1] at hsplit
      have hat2 : optStrTruthy (some a) = true := by
        simp [optStrTruthy, hane]
      have htyb : (pyLower ty == "bearer") = true := by simp [hty]
      rw [hjwt]
      simp [jwt_branch, ha, hat2, hsplit, htyb]
    · intro a ha hane hbad
      have hat2 : optStrTruthy (some a) = true := by
        simp [optStrTruthy, hane]
      rw [hjwt]
      simp only [jwt_branch, ha, hat2, Bool.not_true, Bool.false_eq_true, if_false,
        Option.getD_some]
      cases hsplit : pySplitMax1 a with
      | nil => simp
      | cons x l =>
        cases l with
        | nil => simp
        | cons y l2 =>
          cases l2 with
          | nil =>
            have := hbad x y hsplit
            have htyb : (pyLower x == "bearer") = false := by simp [this]
            simp [htyb]
          | cons z l3 => simp

/-- C1 witness: a concrete valid-ticket request (short-circuit accept) and
a concrete bearer-token request handed to JWT verification. -/
theorem C1_gateway_short_circuit_witness :
    parse_ticket_from_uri "http://x/p?ticket=abc" = some "abc"
    ∧ (authenticate_request ⟨none, 30, 1800⟩ ⟨fun _ => none, fun _ _ => false⟩
        ⟨[("abc", 5)]⟩ ⟨[]⟩ 0 ⟨some "http://x/p?ticket=abc", none⟩).1
        = .ok "Ticket validated."
    ∧ (authenticate_request ⟨none, 30, 1800⟩ ⟨fun _ => none, fun _ _ => false⟩
        ⟨[]⟩ ⟨[]⟩ 0 ⟨none, some "Bearer tok"⟩).1
        = (validate_jwt ⟨none, 30, 1800⟩ ⟨fun _ => none, fun _ _ => false⟩ ⟨[]⟩ 0 "tok").1 := by
  have hparse : parse_ticket_from_uri "http://x/p?ticket=abc" = some "abc" := by decide
  refine ⟨hparse, ?_, ?_⟩
  · have := ((C1_gateway_short_circuit ⟨none, 30, 1800⟩ ⟨fun _ => none, fun _ _ => false⟩
      ⟨[("abc", 5)]⟩ ⟨[]⟩ 0 ⟨some "http://x/p?ticket=abc", none⟩).1 "abc" hparse
      (by decide)).1
    rw [this]
    decide
  · exact ((C1_gateway_short_circuit ⟨none, 30, 1800⟩ ⟨fun _ => none, fun _ _ => false⟩
      ⟨[]⟩ ⟨[]⟩ 0 ⟨none, some "Bearer tok"⟩).2 (by decide)).2.1 "Bearer tok" "Bearer" "tok"
      rfl (by decide) (by decide)

/-! Claim C5: the WebSocket URL rewrite. -/

/-- String append acts as list append on the underlying data. -/
theorem string_data_append (a b : String) : (a ++ b).data = a.data ++ b.data := by
  cases a; cases b; rfl

/-- Rebuilding a string from its data is the identity. -/
theorem string_mk_data (s : String) : String.mk s.data = s := by
  cases s; rfl

/-- takeWhile over an append whose left part satisfies the predicate. -/
theorem takeWhile_append_of_all (p : Char → Bool) (l₁ l₂ : List Char)
    (h : ∀ c ∈ l₁, p c = true) :
    (l₁ ++ l₂).takeWhile p = l₁ ++ l₂.takeWhile p := by
  induction l₁ with
  | nil => simp
  | cons a l ih =>
    have ha := h a (by simp)
    simp [List.takeWhile_cons, ha, ih (fun c hc => h c (by simp [hc]))]

/-- dropWhile over an append whose left part satisfies the predicate. -/
theorem dropWhile_append_of_all (p : Char → Bool) (l₁ l₂ : List Char)
    (h : ∀ c ∈ l₁, p c = true) :
    (l₁ ++ l₂).dropWhile p = l₂.dropWhile p := by
  induction l₁ with
  | nil => simp
  | cons a l ih =>
    have ha := h a (by simp)
    simp [List.dropWhile_cons, ha, ih (fun c hc => h c (by simp [hc]))]

/-- A list is a prefix of itself followed by anything. -/
theorem isPrefixOf_append_self (l₁ l₂ : List Char) : l₁.isPrefixOf (l₁ ++ l₂) = true := by
  induction l₁ with
  | nil => simp [List.isPrefixOf]
  | cons a l ih => simp [List.isPrefixOf, ih]

/-- The scanner leaves an empty input empty at any fuel. -/
theorem subWsUrls_nil (ph pf pr : String) (n : Nat) : subWsUrls ph pf pr n [] = [] := by
  cases n <;> rfl

/-- The pattern match succeeds on a quoted ws URL whose host is nonempty
and slash-free and whose path starts with /devtools/ and runs quote-free
to the closing quote. -/
theorem tryWsMatch_devtools (hd tl : List Char) (hh : hd ≠ [])
    (hslash : ∀ c ∈ hd, c ≠ '/') (ht : ∀ c ∈ tl, c ≠ '"') :
    tryWsMatch ('w' :: 's' :: ':' :: '/' :: '/' :: (hd ++ (devtoolsLit ++ (tl ++ ['"']))))
      = some (devtoolsLit ++ tl, []) := by
  have hscheme : wsSchemeChomp
      ('w' :: 's' :: ':' :: '/' :: '/' :: (hd ++ (devtoolsLit ++ (tl ++ ['"']))))
      = some (hd ++ (devtoolsLit ++ (tl ++ ['"']))) := rfl
  have hp1 : ∀ c ∈ hd, (decide (c ≠ '/')) = true := by
    intro c hc; simpa using hslash c hc
  have htake : (hd ++ (devtoolsLit ++ (tl ++ ['"']))).takeWhile (fun c => c ≠ '/') = hd := by
    rw [takeWhile_append_of_all _ _ _ hp1]
    simp [devtoolsLit, List.takeWhile_cons]
  have hdrop : (hd ++ (devtoolsLit ++ (tl ++ ['"']))).dropWhile (fun c => c ≠ '/')
      = devtoolsLit ++ (tl ++ ['"']) := by
    rw [dropWhile_append_of_all _ _ _ hp1]
    simp [devtoolsLit, List.dropWhile_cons]
  have hpre : devtoolsLit.isPrefixOf (devtoolsLit ++ (tl ++ ['"'])) = true :=
    isPrefixOf_append_self _ _
  have hdropped : (devtoolsLit ++ (tl ++ ['"'])).drop devtoolsLit.length = tl ++ ['"'] :=
    List.drop_left _ _
  have hp2 : ∀ c ∈ tl, (decide (c ≠ '"')) = true := by
    intro c hc; simpa using ht c hc
  have htail : (tl ++ ['"']).takeWhile (fun c => c ≠ '"') = tl := by
    rw [takeWhile_append_of_all _ _ _ hp2]
    simp [List.takeWhile_cons]
  have htaildrop : (tl ++ ['"']).dropWhile (fun c => c ≠ '"') = ['"'] := by
    rw [dropWhile_append_of_all _ _ _ hp2]
    simp [List.dropWhile_cons]
  have hne : hd.isEmpty = false := by
    cases hd with
    | nil => exact absurd rfl hh
    | cons c l => rfl
  unfold tryWsMatch
  rw [hscheme]
  simp only [htake, hdrop, hne, Bool.false_eq_true, if_false, hpre, if_true, hdropped,
    htail, htaildrop]

/-- C5 counterexample: a 200 body embedding the session URL
ws://internalhost/sess/abc is left completely unchanged by the rewrite
(the pattern only matches paths under /devtools/), instead of being
rewritten to wss://public.example/pfx/sess/abc as the claim states; the
full discovery handler consequently returns the body unchanged. -/
theorem C5_counterexample :
    rewrite_websocket_urls "\"ws://internalhost/sess/abc\"" "public.example" "/pfx" "wss"
      = "\"ws://internalhost/sess/abc\""
    ∧ ("\"ws://internalhost/sess/abc\"" : String) ≠ "\"wss://public.example/pfx/sess/abc\""
    ∧ handle_http_request ⟨some "http://up:9222", some "up:9222", "CDPProxy"⟩
        ⟨"GET", "/json", "https", "up:9222",
         [("host", "public.example"), ("x-forwarded-prefix", "/pfx")], none⟩
        (.response 200 "\"ws://internalhost/sess/abc\"" (some "application/json"))
      = .response 200 "\"ws://internalhost/sess/abc\"" (some "application/json") := by
  refine ⟨rfl, by decide, rfl⟩

/-- C5 (amended): the rewrite applies to embedded references of the form
a quoted ws or wss URL whose path starts with /devtools/: the scheme is
replaced by the inbound variant, the host by the externally visible host,
and the forwarded prefix is prepended, leaving the /devtools/ suffix
untouched; references with other paths (such as /sess/abc) are left
unchanged. On a 200 response the handler applies exactly this rewrite
with the inbound host header, forwarded prefix and scheme-derived
protocol. -/
theorem C5_devtools_rewrite (hostStr t ph pfx : String) (hh : hostStr ≠ "")
    (hslash : ∀ c ∈ hostStr.data, c ≠ '/') (ht : ∀ c ∈ t.data, c ≠ '"') :
    rewrite_websocket_urls ("\"ws://" ++ hostStr ++ "/devtools/" ++ t ++ "\"") ph pfx "wss"
      = "\"wss://" ++ ph ++ pfx ++ "/devtools/" ++ t ++ "\""
    ∧ (∀ (cfg : CDPProxyConfig) (req : ProxyRequest) (b : String) (ct : Option String),
        cfg.is_configured = true →
        handle_http_request cfg req (.response 200 b ct)
          = .response 200
              (rewrite_websocket_urls b
                ((headersGet req.headers "host").getD req.netloc)
                ((headersGet req.headers "x-forwarded-prefix").getD "")
                (if req.scheme == "https" then "wss" else "ws")) ct) := by
  constructor
  · have hhd : hostStr.data ≠ [] := by
      intro he
      exact hh (by rw [← string_mk_data hostStr, he])
    have hdata : ("\"ws://" ++ hostStr ++ "/devtools/" ++ t ++ "\"").data
        = '"' :: 'w' :: 's' :: ':' :: '/' :: '/'
            :: (hostStr.data ++ (devtoolsLit ++ (t.data ++ ['"']))) := by
      simp [string_data_append, devtoolsLit]
    unfold rewrite_websocket_urls
    rw [hdata]
    have hmatch := tryWsMatch_devtools hostStr.data t.data hhd hslash ht
    simp only [List.length_cons, subWsUrls, if_true, reduceIte, hmatch, subWsUrls_nil,
      List.append_nil]
    rw [← string_mk_data ("\"wss://" ++ ph ++ pfx ++ "/devtools/" ++ t ++ "\"")]
    apply congrArg String.mk
    simp [string_data_append, devtoolsLit]
  · intro cfg req b ct hcfg
    simp [handle_http_request, hcfg]

/-- C5 witness: a concrete /devtools/ reference rewritten with the inbound
host, prefix and secure scheme. -/
theorem C5_devtools_rewrite_witness :
    ("internalhost" : String) ≠ ""
    ∧ (∀ c ∈ ("internalhost" : String).data, c ≠ '/')
    ∧ (∀ c ∈ ("abc" : String).data, c ≠ '"')
    ∧ rewrite_websocket_urls ("\"ws://" ++ "internalhost" ++ "/devtools/" ++ "abc" ++ "\"")
        "public.example" "/pfx" "wss"
      = "\"wss://" ++ "public.example" ++ "/pfx" ++ "/devtools/" ++ "abc" ++ "\"" :=
  ⟨by decide, by decide, by decide,
   (C5_devtools_rewrite "internalhost" "abc" "public.example" "/pfx" (by decide)
     (by decide) (by decide)).1⟩

/-! Claim C7: control-channel dispatch versus forwarding. -/

/-- A frame is handled exactly when it satisfies the control-frame
characterization. -/
theorem handle_custom_command_isSome (domain : String) (st : Bool) (data : String) :
    (handle_custom_command domain st data).isSome = is_control_frame domain data := by
  unfold handle_custom_command is_control_frame
  cases hin : pyInStr domain.data data.data with
  | false => simp
  | true =>
    simp only [Bool.not_true, Bool.false_eq_true, if_false, Bool.true_and]
    cases hj : json_loads data with
    | none => simp
    | some v =>
      cases v with
      | null => simp
      | bool b => simp
      | num m e => simp
      | str s => simp
      | arr xs => simp
      | obj kvs =>
        simp only []
        cases hm : jsonObjGet kvs "method" with
        | none => simp
        | some mv =>
          cases mv with
          | null => simp
          | bool b => simp
          | num m e => simp
          | arr xs => simp
          | obj o => simp
          | str m =>
            simp only []
            generalize hb : (domain ++ ".").data.isPrefixOf m.data = b
            cases b with
            | false => simp
            | true =>
              simp only [Bool.not_true, Bool.false_eq_true, if_false, Bool.true_and]
              generalize hc : (m == domain ++ ".setLoggingEnabled") = c
              cases c with
              | false => simp
              | true =>
                simp only [if_true]
                cases hp : (jsonObjGet kvs "params").getD (.obj []) with
                | obj ps => simp
                | null => simp
                | bool b2 => simp
                | num mm e => simp
                | str s => simp
                | arr xs => simp

/-- C7 counterexample: two frames that parse as JSON with a string method
prefixed by the control domain are nevertheless forwarded upstream rather
than dispatched locally: one whose params field is an array (the handler
aborts on the attribute access and falls through to forwarding), and one
whose method only spells the domain through a unicode escape (the raw
substring pre-check fails). -/
theorem C7_counterexample :
    json_loads "\x7b\"method\": \"CDPProxy.setLoggingEnabled\", \"id\": 7, \"params\": []\x7d"
      = some (.obj [("method", .str "CDPProxy.setLoggingEnabled"), ("id", .num 7 0),
                    ("params", .arr [])])
    ∧ ("CDPProxy" ++ ".").data.isPrefixOf ("CDPProxy.setLoggingEnabled").data = true
    ∧ forward_text_frame "CDPProxy" false
        "\x7b\"method\": \"CDPProxy.setLoggingEnabled\", \"id\": 7, \"params\": []\x7d"
      = ⟨["\x7b\"method\": \"CDPProxy.setLoggingEnabled\", \"id\": 7, \"params\": []\x7d"],
         [], false⟩
    ∧ json_loads "\x7b\"method\": \"\\u0043DPProxy.setLoggingEnabled\", \"id\": 7\x7d"
      = some (.obj [("method", .str "CDPProxy.setLoggingEnabled"), ("id", .num 7 0)])
    ∧ forward_text_frame "CDPProxy" false
        "\x7b\"method\": \"\\u0043DPProxy.setLoggingEnabled\", \"id\": 7\x7d"
      = ⟨["\x7b\"method\": \"\\u0043DPProxy.setLoggingEnabled\", \"id\": 7\x7d"],
         [], false⟩ :=
  ⟨rfl, rfl, rfl, rfl, rfl⟩

/-- C7 (amended): every inbound text frame is either forwarded upstream
unmodified or answered locally, never both; a frame is dispatched locally
exactly when it contains the domain name as a raw substring and parses as
a JSON object whose method is a string prefixed by the domain and a dot
and, for the setLoggingEnabled verb, whose params field (defaulting to an
empty object) is an object; setLoggingEnabled with id 7 yields exactly the
reply with id 7 and empty result on the inbound channel, any other
domain-prefixed verb yields the -32601 Method-not-found error reply, and a
frame containing the domain but not parseable, or parseable but not
domain-prefixed, is forwarded unmodified. -/
theorem C7_control_dispatch_dichotomy :
    (∀ (domain : String) (st : Bool) (data : String),
      ((forward_text_frame domain st data).upstream = [data]
        ∧ (forward_text_frame domain st data).replies = [])
      ∨ ((forward_text_frame domain st data).upstream = []
        ∧ (forward_text_frame domain st data).replies.length = 1))
    ∧ (∀ (domain : String) (st : Bool) (data : String),
        (forward_text_frame domain st data).upstream = []
          ↔ is_control_frame domain data = true)
    ∧ forward_text_frame "CDPProxy" false
        "\x7b\"method\": \"CDPProxy.setLoggingEnabled\", \"id\": 7, \"params\": \x7b\"enabled\": true\x7d\x7d"
      = ⟨[], [.obj [("id", .num 7 0), ("result", .obj [])]], true⟩
    ∧ forward_text_frame "CDPProxy" false "\x7b\"method\": \"CDPProxy.frobnicate\", \"id\": 3\x7d"
      = ⟨[], [.obj [("id", .num 3 0),
                    ("error", .obj [("code", .num (-32601) 0),
                                    ("message", .str "Method not found")])]], false⟩
    ∧ forward_text_frame "CDPProxy" false "CDPProxy hello"
      = ⟨["CDPProxy hello"], [], false⟩
    ∧ forward_text_frame "CDPProxy" false "\x7b\"method\": \"Page.enable\", \"id\": 1\x7d"
      = ⟨["\x7b\"method\": \"Page.enable\", \"id\": 1\x7d"], [], false⟩ := by
  refine ⟨?_, ?_, rfl, rfl, rfl, rfl⟩
  · intro domain st data
    cases hc : handle_custom_command domain st data with
    | some r => right; simp [forward_text_frame, hc]
    | none => left; simp [forward_text_frame, hc]
  · intro domain st data
    rw [← handle_custom_command_isSome domain st data]
    cases hc : handle_custom_command domain st data with
    | some r => simp [forward_text_frame, hc]
    | none => simp [forward_text_frame, hc]

end Gem
